import Mathlib

/-!
Shallow embedding of the configuration-driven ETL converter
(`src/config_driven_converter.py`, class `ConfigDrivenETLConverter`).

Python scalar values that reach the row pipeline are either strings or
floats; floats are modelled as exact rationals (no claim here depends on
rounding), dictionaries as association lists with last-write-wins update,
and exceptions as `Except String`.  Each definition mirrors one Python
method of the source file and keeps its name.
-/

namespace ETL

/-- Structural decidable equality for `Except`, so concrete runs of the
fallible operations can be checked by `decide`. -/
instance {ε α : Type} [DecidableEq ε] [DecidableEq α] : DecidableEq (Except ε α) :=
  fun x y =>
    match x, y with
    | .error e, .error f =>
        if h : e = f then .isTrue (congrArg Except.error h)
        else .isFalse (fun c => h (by injection c))
    | .error _, .ok _ => .isFalse (fun c => by injection c)
    | .ok _, .error _ => .isFalse (fun c => by injection c)
    | .ok a, .ok b =>
        if h : a = b then .isTrue (congrArg Except.ok h)
        else .isFalse (fun c => h (by injection c))

/-- A Python scalar stored in a row: a string or a number (float, modelled
exactly as a rational). -/
inductive Value where
  | str (s : String)
  | num (q : Rat)
deriving DecidableEq, Repr

/-- A Python dict / pandas Series keyed by field name. -/
abbrev Row := List (String × Value)

/-- First binding for a key (dicts built by `Row.set` keep keys unique, so
this is dict lookup). -/
def Row.find : Row → String → Option Value
  | [], _ => none
  | p :: rest, key => if p.1 = key then some p.2 else Row.find rest key

/-- Python `row.get(key, default)` of a pandas Series / dict. -/
def Row.get (r : Row) (key : String) (default : Value) : Value :=
  (r.find key).getD default

/-- Python `dict[key] = value`: overwrite any previous binding. -/
def Row.set (r : Row) (key : String) (v : Value) : Row :=
  (key, v) :: r.filter (fun p => p.1 ≠ key)

/-- The dict's key set (as a list, possibly with repeats for raw rows). -/
def Row.keys (r : Row) : List String := r.map Prod.fst

/-- Python `str(value)`: strings are unchanged, numbers are rendered (the exact
rendering of a number is irrelevant to every claim). -/
def pyStr : Value → String
  | .str s => s
  | .num q => toString q

/-- Python truthiness test `if value:` on a row scalar, negated by `not`. -/
def pyFalsy : Value → Bool
  | .str s => s = ""
  | .num q => q = 0

/-- Numeric value of a digit run (the run is known to be all digits). -/
def digitsToNat (cs : List Char) : Nat :=
  cs.foldl (fun a c => a * 10 + (c.toNat - 48)) 0

/-- Nonempty and all decimal digits. -/
def isDigits (cs : List Char) : Bool :=
  !cs.isEmpty && cs.all Char.isDigit

/-- Python `str.strip()`: drop whitespace from both ends. -/
def stripChars (cs : List Char) : List Char :=
  ((cs.dropWhile Char.isWhitespace).reverse.dropWhile Char.isWhitespace).reverse

/-- Split a character list at every occurrence of `sep` (like Python
`s.split(sep)` for a one-character separator, keeping empty pieces). -/
def splitOnChar (sep : Char) (cs : List Char) : List (List Char) :=
  cs.foldr
    (fun c acc =>
      match acc with
      | g :: gs => if c = sep then [] :: g :: gs else (c :: g) :: gs
      | [] => [[c]])
    [[]]

/-- The mantissa part accepted by Python `float`: `digits`, `digits.digits`,
`.digits` or `digits.` (at least one digit overall). -/
def parseMantissa (cs : List Char) : Option Rat :=
  match splitOnChar '.' cs with
  | [a] =>
      if isDigits a then some (digitsToNat a : Rat) else none
  | [a, b] =>
      if a.all Char.isDigit && b.all Char.isDigit && !(a.isEmpty && b.isEmpty) then
        some ((digitsToNat a : Rat) + (digitsToNat b : Rat) / (10 : Rat) ^ b.length)
      else none
  | _ => none

/-- A signed decimal integer (the exponent of a float literal). -/
def parseExpInt (cs : List Char) : Option Int :=
  match cs with
  | '-' :: rest => if isDigits rest then some (-(digitsToNat rest : Int)) else none
  | '+' :: rest => if isDigits rest then some (digitsToNat rest : Int) else none
  | _ => if isDigits cs then some (digitsToNat cs : Int) else none

/-- Python `float(string)` on finite decimal literals: optional surrounding
whitespace, optional sign, mantissa, optional `e`/`E` exponent.  (The model
leaves out `inf`/`nan` and digit-group underscores, which no configuration
or claim exercises.)  `none` models `ValueError`. -/
def parseFloat (s0 : String) : Option Rat :=
  let s := stripChars s0.toList
  let signed : Bool × List Char :=
    match s with
    | '-' :: rest => (true, rest)
    | '+' :: rest => (false, rest)
    | _ => (false, s)
  let body : Option Rat :=
    match splitOnChar 'e' (signed.2.map (fun c => if c = 'E' then 'e' else c)) with
    | [m] => parseMantissa m
    | [m, e] =>
        match parseMantissa m, parseExpInt e with
        | some q, some k => some (q * (10 : Rat) ^ k)
        | _, _ => none
    | _ => none
  body.map (fun q => if signed.1 then -q else q)

/-- Source `safe_float_conversion` (src lines 325-332): `float(value) if value else
0.0`, with `ValueError`/`TypeError` giving `0.0`. -/
def safe_float_conversion (value : Value) : Rat :=
  match value with
  | .num q => q
  | .str s => if s = "" then 0 else (parseFloat s).getD 0

/-- Whether `pat` occurs as a contiguous run inside `cs`. -/
def infixChars (pat : List Char) : List Char → Bool
  | [] => pat.isEmpty
  | c :: rest => pat.isPrefixOf (c :: rest) || infixChars pat rest

/-- Python `pattern in s` substring containment. -/
def containsSubstr (s pattern : String) : Bool :=
  infixChars pattern.toList s.toList

/-- Python `value == lit` where `lit` is a string literal: a float compares
unequal to every string. -/
def Value.eqStr : Value → String → Bool
  | .str s, t => s = t
  | .num _, _ => false

/-- Python `value in [lits]` over string literals. -/
def Value.memStrs : Value → List String → Bool
  | .str s, ts => ts.contains s
  | .num _, _ => false

/-- The ten condition pattern texts recognized by `evaluate_condition`, in
the order the source checks them. -/
def conditionPatterns : List String :=
  [ "CURRENCY_Cosmos == 'JPY' AND PRODUCT_TYPE IN ['D', 'G']"
  , "CURRENCY_Cosmos == 'JPY' AND PRODUCT_TYPE NOT IN ['D', 'G']"
  , "CURRENCY_Cosmos != 'JPY' AND PRODUCT_TYPE IN ['D', 'G']"
  , "CURRENCY_Cosmos != 'JPY' AND PRODUCT_TYPE NOT IN ['D', 'G']"
  , "Currency_Flex == 'JPY'"
  , "Currency_Flex != 'JPY'"
  , "CONTRACT_STATUS == 'Y' AND FACE_VALUE >= 0"
  , "CONTRACT_STATUS == 'Y' AND FACE_VALUE < 0"
  , "CONTRACT_STATUS == 'A' AND FACE_VALUE >= 0"
  , "CONTRACT_STATUS == 'A' AND FACE_VALUE < 0" ]

/-- Source `evaluate_condition` (src lines 288-323): substring dispatch over the ten
recognized pattern texts; no match gives `false`.  The Python `try`/`except`
wrapper never fires in this total model, so the catch-all-to-`false` policy
is represented by totality plus the final `false`. -/
def evaluate_condition (row : Row) (condition : String) : Bool :=
  let currency_cosmos := row.get "CURRENCY_Cosmos" (.str "")
  let currency_flex := row.get "Currency_Flex" (.str "")
  let product_type := row.get "PRODUCT_TYPE" (.str "")
  let contract_status := row.get "CONTRACT_STATUS" (.str "")
  let face_value := safe_float_conversion (row.get "FACE_VALUE" (.num 0))
  if containsSubstr condition "CURRENCY_Cosmos == 'JPY' AND PRODUCT_TYPE IN ['D', 'G']" then
    currency_cosmos.eqStr "JPY" && product_type.memStrs ["D", "G"]
  else if containsSubstr condition "CURRENCY_Cosmos == 'JPY' AND PRODUCT_TYPE NOT IN ['D', 'G']" then
    currency_cosmos.eqStr "JPY" && !product_type.memStrs ["D", "G"]
  else if containsSubstr condition "CURRENCY_Cosmos != 'JPY' AND PRODUCT_TYPE IN ['D', 'G']" then
    !currency_cosmos.eqStr "JPY" && product_type.memStrs ["D", "G"]
  else if containsSubstr condition "CURRENCY_Cosmos != 'JPY' AND PRODUCT_TYPE NOT IN ['D', 'G']" then
    !currency_cosmos.eqStr "JPY" && !product_type.memStrs ["D", "G"]
  else if containsSubstr condition "Currency_Flex == 'JPY'" then
    currency_flex.eqStr "JPY"
  else if containsSubstr condition "Currency_Flex != 'JPY'" then
    !currency_flex.eqStr "JPY"
  else if containsSubstr condition "CONTRACT_STATUS == 'Y' AND FACE_VALUE >= 0" then
    contract_status.eqStr "Y" && decide (0 ≤ face_value)
  else if containsSubstr condition "CONTRACT_STATUS == 'Y' AND FACE_VALUE < 0" then
    contract_status.eqStr "Y" && decide (face_value < 0)
  else if containsSubstr condition "CONTRACT_STATUS == 'A' AND FACE_VALUE >= 0" then
    contract_status.eqStr "A" && decide (0 ≤ face_value)
  else if containsSubstr condition "CONTRACT_STATUS == 'A' AND FACE_VALUE < 0" then
    contract_status.eqStr "A" && decide (face_value < 0)
  else
    false

/-- Gregorian leap year (`datetime`'s calendar). -/
def isLeapYear (y : Nat) : Bool :=
  (y % 4 = 0 && y % 100 ≠ 0) || y % 400 = 0

/-- Days in a month of the proleptic Gregorian calendar. -/
def daysInMonth (y m : Nat) : Nat :=
  if m = 2 then (if isLeapYear y then 29 else 28)
  else if m = 4 || m = 6 || m = 9 || m = 11 then 30
  else 31

/-- The `datetime(year, month, day)` constructor's range check: `none` models
the `ValueError` it raises on an out-of-range date. -/
def checkDate (y m d : Nat) : Option (Nat × Nat × Nat) :=
  if 1 ≤ y && y ≤ 9999 && 1 ≤ m && m ≤ 12 && 1 ≤ d && d ≤ daysInMonth y m then
    some (y, m, d)
  else none

/-- A component that fully matches `strptime`'s `%Y` field: exactly four
digits. -/
def yearComp (cs : List Char) : Option Nat :=
  if cs.length = 4 && cs.all Char.isDigit then some (digitsToNat cs) else none

/-- A component that fully matches `strptime`'s `%m` field
(regex `1[0-2]|0[1-9]|[1-9]`): one or two digits with value 1..12. -/
def monthComp (cs : List Char) : Option Nat :=
  if cs.all Char.isDigit && (cs.length = 1 || cs.length = 2)
      && 1 ≤ digitsToNat cs && digitsToNat cs ≤ 12 then
    some (digitsToNat cs)
  else none

/-- A component that fully matches `strptime`'s `%d` field
(regex `3[01]|[12]\x5cd|0[1-9]|[1-9]`): one or two digits with value 1..31. -/
def dayComp (cs : List Char) : Option Nat :=
  if cs.all Char.isDigit && (cs.length = 1 || cs.length = 2)
      && 1 ≤ digitsToNat cs && digitsToNat cs ≤ 31 then
    some (digitsToNat cs)
  else none

/-- Model of `strptime(s, '%Y-%m-%d')`. -/
def strptimeYmdDash (cs : List Char) : Option (Nat × Nat × Nat) :=
  match splitOnChar '-' cs with
  | [y, m, d] =>
      match yearComp y, monthComp m, dayComp d with
      | some yv, some mv, some dv => checkDate yv mv dv
      | _, _, _ => none
  | _ => none

/-- The digit value of a digit character. -/
def digitVal (c : Char) : Nat := c.toNat - 48

/-- The `%m` regex alternatives `1[0-2]|0[1-9]|[1-9]` tried at the head of
`cs`, in the regex's order: each hit is the month value and the rest. -/
def monthHeadCands (cs : List Char) : List (Nat × List Char) :=
  match cs with
  | c1 :: c2 :: rest =>
      (if c1 = '1' && (c2 = '0' || c2 = '1' || c2 = '2')
        then [(10 + digitVal c2, rest)] else [])
      ++ (if c1 = '0' && c2.isDigit && c2 ≠ '0' then [(digitVal c2, rest)] else [])
      ++ (if c1.isDigit && c1 ≠ '0' then [(digitVal c1, c2 :: rest)] else [])
  | [c1] => if c1.isDigit && c1 ≠ '0' then [(digitVal c1, [])] else []
  | [] => []

/-- The `%d` regex `3[01]|[12]\x5cd|0[1-9]|[1-9]` at the head of `cs`: the
first alternative that matches wins (after it the pattern is complete, so
the regex engine never revisits this choice). -/
def dayHead (cs : List Char) : Option (Nat × List Char) :=
  match cs with
  | c1 :: c2 :: rest =>
      if c1 = '3' && (c2 = '0' || c2 = '1') then some (30 + digitVal c2, rest)
      else if (c1 = '1' || c1 = '2') && c2.isDigit
        then some (10 * digitVal c1 + digitVal c2, rest)
      else if c1 = '0' && c2.isDigit && c2 ≠ '0' then some (digitVal c2, rest)
      else if c1.isDigit && c1 ≠ '0' then some (digitVal c1, c2 :: rest)
      else none
  | [c1] => if c1.isDigit && c1 ≠ '0' then some (digitVal c1, []) else none
  | [] => none

/-- Backtracking over the month alternatives: the regex moves to the next
month candidate only when no day alternative matches at all. -/
def pickMonthDay : List (Nat × List Char) → Option (Nat × Nat × List Char)
  | [] => none
  | (m, rest) :: more =>
      match dayHead rest with
      | some (d, rest2) => some (m, d, rest2)
      | none => pickMonthDay more

/-- Model of `strptime(s, '%Y%m%d')`: four digits of year, then the month and day
regexes; `strptime` demands afterwards that the match consumed the whole
string (without further backtracking), then builds the `datetime`. -/
def strptimeYmdCompact (cs : List Char) : Option (Nat × Nat × Nat) :=
  let ys := cs.take 4
  if ys.length = 4 && ys.all Char.isDigit then
    match pickMonthDay (monthHeadCands (cs.drop 4)) with
    | some (m, d, rest) => if rest.isEmpty then checkDate (digitsToNat ys) m d else none
    | none => none
  else none

/-- Model of `strptime(s, '%d/%m/%Y')`. -/
def strptimeDmySlash (cs : List Char) : Option (Nat × Nat × Nat) :=
  match splitOnChar '/' cs with
  | [d, m, y] =>
      match yearComp y, monthComp m, dayComp d with
      | some yv, some mv, some dv => checkDate yv mv dv
      | _, _, _ => none
  | _ => none

/-- Model of `strptime(s, '%m/%d/%Y')`. -/
def strptimeMdySlash (cs : List Char) : Option (Nat × Nat × Nat) :=
  match splitOnChar '/' cs with
  | [m, d, y] =>
      match yearComp y, monthComp m, dayComp d with
      | some yv, some mv, some dv => checkDate yv mv dv
      | _, _, _ => none
  | _ => none

/-- A natural number as decimal digits, left-padded with zeros to `w`. -/
def padNum (w n : Nat) : String :=
  let s := Nat.toDigits 10 n
  ⟨List.replicate (w - s.length) '0' ++ s⟩

/-- Model of `dt.strftime('%Y%m%d')` as glibc renders it: month and day zero-padded
to two digits, the year unpadded (it has four digits for every date the
claims reach). -/
def strftimeYmd (d : Nat × Nat × Nat) : String :=
  toString d.1 ++ padNum 2 d.2.1 ++ padNum 2 d.2.2

/-- The source's fallback chain `['%Y-%m-%d', '%Y%m%d', '%d/%m/%Y',
'%m/%d/%Y']`: the first format whose parse succeeds. -/
def formatChain (cs : List Char) : Option (Nat × Nat × Nat) :=
  match strptimeYmdDash cs with
  | some d => some d
  | none =>
      match strptimeYmdCompact cs with
      | some d => some d
      | none =>
          match strptimeDmySlash cs with
          | some d => some d
          | none => strptimeMdySlash cs

/-- Source `format_date` (src lines 334-350): falsy or missing input gives `''`;
otherwise the four formats are tried in order and the first successful parse
is re-emitted as `YYYYMMDD`; if every format fails, the first 8 characters
of the raw text are returned.  (`pd.isna` is `False` on every string, and
the model has no `NaN` float, so the falsy test alone decides the first
branch.) -/
def format_date (date_str : Value) : String :=
  if pyFalsy date_str then ""
  else
    let s := pyStr date_str
    match formatChain s.toList with
    | some d => strftimeYmd d
    | none => ⟨s.toList.take 8⟩

/-- One entry of an input schema's `columns` list, with the source's
defaults (`column.get('length', 1)`, `column.get('data_type', 'string')`,
`column.get('required', False)`). -/
structure Column where
  name : String
  length : Nat := 1
  data_type : String := "string"
  required : Bool := false
deriving DecidableEq, Repr

/-- One entry of the input schema's `validation_rules` list.  `fields` is
read for `required_fields` rules, `field`/`valid_values` for the two
value-catalog rules (whose observed-value scan only logs, so the embedding
carries the table's column list alone). -/
structure ValidationRule where
  rule_type : String
  fields : List String := []
  field : String := ""
  valid_values : List String := []
deriving DecidableEq, Repr

/-- The input schema document (the parts the core reads). -/
structure InputSchema where
  columns : List Column
  validation_rules : List ValidationRule := []
deriving DecidableEq, Repr

/-- One entry of a transformation rule's `logic.conditions` list: a
condition-pattern string plus the per-rule payload (`action` for LEAF_GL,
`value` for DRORCR, `source_field` for ACCRUAL). -/
structure CondEntry where
  condition : String
  action : String := ""
  value : String := ""
  source_field : String := ""
deriving DecidableEq, Repr

/-- A rule's `logic` block.  `default_action` records whether the document
configures a (non-empty) `default_action` object — the source only tests
its truthiness. -/
structure RuleLogic where
  conditions : List CondEntry := []
  default_action : Bool := false
deriving DecidableEq, Repr

/-- One entry of the processing rules document's `transformation_rules`. -/
structure TransformationRule where
  rule_id : String
  output_field : Option String := none
  logic : RuleLogic := {}
deriving DecidableEq, Repr

/-- One entry of the processing rules document's `field_mappings`.
`default_value := none` models a mapping without a `default_value` key, which
`apply_field_mapping` reads unconditionally for `DEFAULT_VALUE`. -/
structure FieldMapping where
  output_field : String
  input_field : String
  transformation : String
  default_value : Option Value := none
deriving DecidableEq, Repr

/-- The processing rules document (the parts the core reads). -/
structure ProcessingRules where
  transformation_rules : List TransformationRule := []
  field_mappings : List FieldMapping := []
deriving DecidableEq, Repr

/-- The output schema document: column names plus
`additional_fields.fields`. -/
structure OutputSchema where
  columns : List String := []
  additional_fields : List String := []
deriving DecidableEq, Repr

/-- An input table: pandas exposes `df.columns` for validation and the rows
for iteration. -/
structure Table where
  columns : List String := []
  rows : List Row := []
deriving DecidableEq, Repr

/-- Extraction `line[position:position+field_length].strip()`, with the source's guard
`if position + field_length > len(line): field_value = ''` in front (so a
span that overruns the line yields the empty value, never an error). -/
def extractField (line : String) (position length : Nat) : String :=
  if position + length > line.length then ""
  else ⟨stripChars ((line.toList.drop position).take length)⟩

/-- Type conversion of one extracted field (src lines 97-106): `string` and
unrecognized types keep the trimmed text; `numeric` converts through
`float`, with empty or invalid text becoming `0.0`. -/
def convertField (data_type : String) (field_value : String) : Value :=
  if data_type = "string" then .str field_value
  else if data_type = "numeric" then
    .num (if field_value = "" then 0 else (parseFloat field_value).getD 0)
  else .str field_value

/-- The value recorded for one column starting at `position`. -/
def fieldValue (line : String) (position : Nat) (column : Column) : Value :=
  convertField column.data_type (extractField line position column.length)

/-- The `(name, value)` pairs produced by walking the columns in declared
order from `position` (the source's running `position += field_length`). -/
def parseCols (line : String) (position : Nat) : List Column → List (String × Value)
  | [] => []
  | c :: rest => (c.name, fieldValue line position c) :: parseCols line (position + c.length) rest

/-- Build a Python dict from assignments made in order (later assignments to
the same key overwrite earlier ones). -/
def dictOf (ps : List (String × Value)) : Row :=
  ps.foldl (fun r p => r.set p.1 p.2) []

/-- Source `parse_dat_line` (src lines 73-114): fixed-width extraction of every
schema column into a record.  The model is total: the warning branches only
log, and no statement of the loop can raise, so the `except` fallback that
would drop the record is unreachable. -/
def parse_dat_line (schema : InputSchema) (line : String) : Row :=
  dictOf (parseCols line 0 schema.columns)

/-- Sum of the declared lengths of a column list (the running offset). -/
def sumLengths (cols : List Column) : Nat :=
  (cols.map Column.length).sum

/-- Source `apply_validation_rule` (src lines 136-164): `required_fields` fails on
any listed field absent from the table's columns; the two value-catalog
rules and unknown rule kinds always pass (their findings are only logged). -/
def apply_validation_rule (tableCols : List String) (rule : ValidationRule) : Bool :=
  if rule.rule_type = "required_fields" then
    rule.fields.all (fun f => decide (f ∈ tableCols))
  else if rule.rule_type = "currency_validation" then true
  else if rule.rule_type = "product_type_validation" then true
  else true

/-- Source `validate_input_data` (src lines 116-134): every schema column marked
required must be a table column, then every validation rule must pass. -/
def validate_input_data (schema : InputSchema) (tableCols : List String) : Bool :=
  ((schema.columns.filter Column.required).map Column.name).all
      (fun c => decide (c ∈ tableCols))
    && schema.validation_rules.all (apply_validation_rule tableCols)

/-- The loop body of `calculate_leaf_gl_from_config`: on the first condition
that evaluates true, the `if/elif` chain over the action text returns a
suffixed LEAF_GL; an action that contains none of the four tags falls
through to the next condition, and exhaustion returns the raw LEAF_GL
value. -/
def leafGlLoop (row : Row) (leaf_gl : Value) : List CondEntry → Value
  | [] => leaf_gl
  | c :: rest =>
      if evaluate_condition row c.condition then
        if containsSubstr c.action "JPY_D_G" then .str (pyStr leaf_gl ++ "_JPY_D_G")
        else if containsSubstr c.action "JPY_OTHER" then .str (pyStr leaf_gl ++ "_JPY_OTHER")
        else if containsSubstr c.action "NOJPY_D_G" then .str (pyStr leaf_gl ++ "_NOJPY_D_G")
        else if containsSubstr c.action "NOJPY_OTHER" then .str (pyStr leaf_gl ++ "_NOJPY_OTHER")
        else leafGlLoop row leaf_gl rest
      else leafGlLoop row leaf_gl rest

/-- Source `calculate_leaf_gl_from_config` (src lines 187-206). -/
def calculate_leaf_gl_from_config (row : Row) (rule : TransformationRule) : Value :=
  leafGlLoop row (row.get "LEAF_GL" (.str "")) rule.logic.conditions

/-- The loop of `calculate_accrual_account_from_config` (src lines 208-217):
first matching condition returns `str(row.get(source_field, ''))`, no match
returns the empty string. -/
def accrualLoop (row : Row) : List CondEntry → String
  | [] => ""
  | c :: rest =>
      if evaluate_condition row c.condition then pyStr (row.get c.source_field (.str ""))
      else accrualLoop row rest

/-- Source `calculate_accrual_account_from_config` (src lines 208-217). -/
def calculate_accrual_account_from_config (row : Row) (rule : TransformationRule) : String :=
  accrualLoop row rule.logic.conditions

/-- The condition loop of `calculate_drorcr_from_config`: the first matching
condition's literal `value`, if any. -/
def drorcrLoop (row : Row) : List CondEntry → Option String
  | [] => none
  | c :: rest =>
      if evaluate_condition row c.condition then some c.value else drorcrLoop row rest

/-- Source `calculate_drorcr_from_config` (src lines 219-232): first match returns
the condition's value; otherwise with a configured default action the sign
of the safely-coerced FACE_VALUE picks `'C'` (≥ 0) or `'D'` (< 0); with no
default action the result is `'C'`. -/
def calculate_drorcr_from_config (row : Row) (rule : TransformationRule) : String :=
  match drorcrLoop row rule.logic.conditions with
  | some v => v
  | none =>
      if rule.logic.default_action then
        if 0 ≤ safe_float_conversion (row.get "FACE_VALUE" (.num 0)) then "C" else "D"
      else "C"

/-- Source `calculate_balance_sign_from_config` (src lines 234-250): the amount is
`LCY_FACE_VALUE` when `Currency_Flex == 'JPY'` and `FACE_VALUE` otherwise,
safely coerced; both `OPBALSIGN` and `CLBALSIGN` get `'D'` for a negative
amount and `'C'` otherwise. -/
def calculate_balance_sign_from_config (row : Row) : List (String × Value) :=
  let amount :=
    if (row.get "Currency_Flex" (.str "")).eqStr "JPY" then
      safe_float_conversion (row.get "LCY_FACE_VALUE" (.num 0))
    else
      safe_float_conversion (row.get "FACE_VALUE" (.num 0))
  let sign := if amount < 0 then "D" else "C"
  [("OPBALSIGN", .str sign), ("CLBALSIGN", .str sign)]

/-- Source `format_dates_from_config` (src lines 252-269): the fixed output-to-input
date mapping, each value pushed through `format_date`. -/
def format_dates_from_config (row : Row) : List (String × Value) :=
  [ ("VALUEDATE", .str (format_date (row.get "VALUE_DATE" (.str ""))))
  , ("ENTRYDATE", .str (format_date (row.get "DEAL_DATE" (.str ""))))
  , ("OPBALDATE", .str (format_date (row.get "VALUE_DATE" (.str ""))))
  , ("CLBALDATE", .str (format_date (row.get "VALUE_DATE" (.str "")))) ]

/-- Source `calculate_amounts_from_config` (src lines 271-286): the same
currency-conditional amount as the balance-sign rule; `AMOUNT` is its
absolute value, `OPBAL` and `CLBAL` the signed value. -/
def calculate_amounts_from_config (row : Row) : List (String × Value) :=
  let amount :=
    if (row.get "Currency_Flex" (.str "")).eqStr "JPY" then
      safe_float_conversion (row.get "LCY_FACE_VALUE" (.num 0))
    else
      safe_float_conversion (row.get "FACE_VALUE" (.num 0))
  [("AMOUNT", .num |amount|), ("OPBAL", .num amount), ("CLBAL", .num amount)]

/-- The shared amount selection both balance-sign and amount rules inline
(stated once so the agreement between the two handlers can be proved). -/
def amountSource (row : Row) : Rat :=
  if (row.get "Currency_Flex" (.str "")).eqStr "JPY" then
    safe_float_conversion (row.get "LCY_FACE_VALUE" (.num 0))
  else
    safe_float_conversion (row.get "FACE_VALUE" (.num 0))

/-- What a transformation handler hands back to `transform_row`: a scalar, a
dict of output fields, or Python `None` for an unknown rule identifier. -/
inductive RuleResult where
  | scalar (v : Value)
  | group (fields : List (String × Value))
  | noResult
deriving DecidableEq, Repr

/-- Source `apply_transformation_rule` (src lines 166-185): dispatch on `rule_id`
over the six handlers; an unrecognized identifier returns `None`. -/
def apply_transformation_rule (row : Row) (rule : TransformationRule) : RuleResult :=
  if rule.rule_id = "LEAF_GL_CALCULATION" then
    .scalar (calculate_leaf_gl_from_config row rule)
  else if rule.rule_id = "ACCRUAL_ACCOUNT_LOGIC" then
    .scalar (.str (calculate_accrual_account_from_config row rule))
  else if rule.rule_id = "DRORCR_CALCULATION" then
    .scalar (.str (calculate_drorcr_from_config row rule))
  else if rule.rule_id = "BALANCE_SIGN_CALCULATION" then
    .group (calculate_balance_sign_from_config row)
  else if rule.rule_id = "DATE_FORMATTING" then
    .group (format_dates_from_config row)
  else if rule.rule_id = "AMOUNT_CALCULATION" then
    .group (calculate_amounts_from_config row)
  else
    .noResult

/-- Source `apply_field_mapping` (src lines 352-366).  For `DEFAULT_VALUE` the
source reads `mapping['default_value']` unconditionally, so a mapping
without that key raises `KeyError` — modelled as the `.error` case. -/
def apply_field_mapping (row : Row) (mapping : FieldMapping) : Except String Value :=
  if mapping.transformation = "DIRECT_COPY" then
    .ok (row.get mapping.input_field (.str ""))
  else if mapping.transformation = "DEFAULT_VALUE" then
    match mapping.default_value with
    | some v => .ok v
    | none => .error "KeyError: default_value"
  else if mapping.transformation = "STRING_CONVERSION" then
    .ok (.str (pyStr (row.get mapping.input_field (.str ""))))
  else
    .ok (.str "")

/-- The rule half of `transform_row`'s loop: a dict result is merged entry
by entry, a scalar lands in the rule's `output_field` when that is present
and non-empty (Python tests its truthiness), `None` changes nothing. -/
def applyRuleToRow (row : Row) (transformed : Row) (rule : TransformationRule) : Row :=
  match apply_transformation_rule row rule with
  | .scalar v =>
      match rule.output_field with
      | some f => if f = "" then transformed else transformed.set f v
      | none => transformed
  | .group fs => fs.foldl (fun acc p => acc.set p.1 p.2) transformed
  | .noResult => transformed

/-- The mapping half of `transform_row`'s loop, in declared order; a raised
`KeyError` escapes the whole row transform. -/
def applyMappings (row : Row) (transformed : Row) : List FieldMapping → Except String Row
  | [] => .ok transformed
  | m :: rest =>
      match apply_field_mapping row m with
      | .ok v => applyMappings row (transformed.set m.output_field v) rest
      | .error e => .error e

/-- The fill loop at the end of `transform_row`: every expected output field
not yet set is bound to the empty string. -/
def fillDefaults (fields : List String) (transformed : Row) : Row :=
  fields.foldl (fun acc f => if (acc.find f).isSome then acc else acc.set f (.str "")) transformed

/-- The list `output_columns + additional_fields` (src lines 388-390 and 429-431). -/
def allOutputFields (os : OutputSchema) : List String :=
  os.columns ++ os.additional_fields

/-- Source `transform_row` before the fill loop: all transformation rules, then all
field mappings, over an initially empty dict. -/
def transformCore (pr : ProcessingRules) (row : Row) : Except String Row :=
  applyMappings row (pr.transformation_rules.foldl (applyRuleToRow row) []) pr.field_mappings

/-- Source `transform_row` (src lines 368-396). -/
def transform_row (pr : ProcessingRules) (os : OutputSchema) (row : Row) : Except String Row :=
  (transformCore pr row).map (fillDefaults (allOutputFields os))

/-- The row loop of `convert_data` (src lines 420-427): each row is
transformed; a row whose transform raises is logged and skipped, and the
loop continues. -/
def convertRows (pr : ProcessingRules) (os : OutputSchema) : List Row → List Row
  | [] => []
  | row :: rest =>
      match transform_row pr os row with
      | .ok t => t :: convertRows pr os rest
      | .error _ => convertRows pr os rest

/-- Source `convert_data` (src lines 398-436) from the point where the input is
already a table: validation failure raises `ValueError` and aborts;
otherwise the rows are transformed in order with per-row failures skipped.
(The final `pd.DataFrame(transformed_rows, columns=all_columns)` selects the
declared columns for presentation; the claims about `convert_data` concern
which transformed rows appear.) -/
def convert_data (schema : InputSchema) (pr : ProcessingRules) (os : OutputSchema)
    (t : Table) : Except String (List Row) :=
  if validate_input_data schema t.columns then
    .ok (convertRows pr os t.rows)
  else
    .error "Input data validation failed"

/-- Input schema with no required columns and one `required_fields`
validation rule naming a field no table column provides. -/
def c1schema : InputSchema :=
  { columns := [], validation_rules := [{ rule_type := "required_fields", fields := ["F"] }] }

/-- A row whose currency is not JPY and whose product type is D. -/
def c2row : Row :=
  [("CURRENCY_Cosmos", .str "USD"), ("PRODUCT_TYPE", .str "D"), ("LEAF_GL", .str "LEAF003")]

/-- A LEAF_GL rule whose single condition is the not-JPY/D-or-G pattern and
whose action tag carries `NOJPY_D_G`. -/
def c2rule : TransformationRule :=
  { rule_id := "LEAF_GL_CALCULATION"
  , logic := { conditions :=
      [ { condition := "CURRENCY_Cosmos != 'JPY' AND PRODUCT_TYPE IN ['D', 'G']"
        , action := "SET_LEAF_GL_NOJPY_D_G" } ] } }

/-- Processing rules with a single direct-copy mapping into field `X`. -/
def c3pr : ProcessingRules :=
  { field_mappings := [{ output_field := "X", input_field := "I", transformation := "DIRECT_COPY" }] }

/-- An output schema declaring only column `A` (so `X` is undeclared). -/
def c3os : OutputSchema := { columns := ["A"] }

/-- A DRORCR rule with no conditions and a configured default action. -/
def c4rule0 : TransformationRule :=
  { rule_id := "DRORCR_CALCULATION", logic := { conditions := [], default_action := true } }

/-- A DRORCR condition entry carrying literal value `X`. -/
def c4wcond : CondEntry := { condition := "Currency_Flex == 'JPY'", value := "X" }

/-- A DRORCR rule with the single condition `c4wcond`. -/
def c4wrule : TransformationRule :=
  { rule_id := "DRORCR_CALCULATION", logic := { conditions := [c4wcond] } }

/-- A row matching `c4wcond`. -/
def c4wrow : Row := [("Currency_Flex", .str "JPY")]

/-- The claim's balance-sign example row: JPY with `LCY_FACE_VALUE = -500`. -/
def c5row : Row := [("Currency_Flex", .str "JPY"), ("LCY_FACE_VALUE", .num (-500))]

/-- A three-character string column. -/
def c7colA : Column := { name := "A", length := 3 }

/-- A four-character numeric column following `c7colA`. -/
def c7colN : Column := { name := "N", length := 4, data_type := "numeric" }

/-- Fixed-width schema whose declared width (7) exceeds the witness line. -/
def c7schema : InputSchema := { columns := [c7colA, c7colN] }

/-- A one-row table over no columns. -/
def c9table : Table := { columns := [], rows := [[]] }

/-- An empty input schema (no required columns, no rules). -/
def c9schema : InputSchema := { columns := [] }

/-- A `DEFAULT_VALUE` mapping with no `default_value` entry. -/
def c10map : FieldMapping :=
  { output_field := "X", input_field := "I", transformation := "DEFAULT_VALUE" }

/-- Processing rules carrying only the defaultless `DEFAULT_VALUE` mapping. -/
def c10pr : ProcessingRules := { field_mappings := [c10map] }

theorem Row.find_set_self (r : Row) (k : String) (v : Value) :
    (r.set k v).find k = some v := by
  simp [Row.set, Row.find]

theorem Row.find_filter_ne (r : Row) (k k' : String) (h : k' ≠ k) :
    Row.find (r.filter (fun p => p.1 ≠ k)) k' = r.find k' := by
  induction r with
  | nil => rfl
  | cons p rest ih =>
      rw [List.filter_cons]
      by_cases hp : p.1 = k
      · have hp' : ¬(p.1 = k') := fun hh => h (hh ▸ hp)
        rw [if_neg (by simp [hp]), ih]
        simp only [Row.find]
        rw [if_neg hp']
      · rw [if_pos (by simp [hp])]
        simp only [Row.find]
        rw [ih]

theorem Row.find_set_ne (r : Row) (k k' : String) (v : Value) (h : k' ≠ k) :
    (r.set k v).find k' = r.find k' := by
  have hk : ¬(k = k') := fun hh => h hh.symm
  simp only [Row.set, Row.find, hk, if_false]
  exact Row.find_filter_ne r k k' h

theorem Row.mem_keys_iff_find (r : Row) (k : String) :
    k ∈ r.keys ↔ (r.find k).isSome := by
  induction r with
  | nil => simp [Row.keys, Row.find]
  | cons p rest ih =>
      by_cases hp : p.1 = k
      · simp [Row.keys, Row.find, hp]
      · have hp' : ¬(k = p.1) := fun hh => hp hh.symm
        simp only [Row.keys, List.map_cons, List.mem_cons, hp', false_or, Row.find, hp,
          if_false]
        exact ih

theorem Row.mem_keys_set (r : Row) (k k' : String) (v : Value) :
    k' ∈ (r.set k v).keys ↔ k' = k ∨ k' ∈ r.keys := by
  by_cases h : k' = k
  · subst h
    simp [Row.mem_keys_iff_find, Row.find_set_self]
  · simp [Row.mem_keys_iff_find, Row.find_set_ne r k k' v h, h]

theorem c1_counterexample :
    (∀ c ∈ c1schema.columns, c.required = true → c.name ∈ ([] : List String))
    ∧ validate_input_data c1schema [] = false := by
  constructor
  · intro c hc
    simp [c1schema] at hc
  · decide

theorem apply_validation_rule_true_iff (tableCols : List String) (rule : ValidationRule) :
    apply_validation_rule tableCols rule = true ↔
      (rule.rule_type = "required_fields" → ∀ f ∈ rule.fields, f ∈ tableCols) := by
  by_cases h : rule.rule_type = "required_fields"
  · simp [apply_validation_rule, h, List.all_eq_true]
  · simp [apply_validation_rule, h]

/-- C1 (corrected): `validate_input_data` returns pass iff every required
schema column is a table column AND every `required_fields` rule's listed
fields are all table columns — the `required_fields` rule does change the
pass/fail outcome, while the two value-catalog rules never do. -/
theorem validate_input_data_true_iff (schema : InputSchema) (tableCols : List String) :
    validate_input_data schema tableCols = true ↔
      ((∀ c ∈ schema.columns, c.required = true → c.name ∈ tableCols)
        ∧ ∀ rule ∈ schema.validation_rules,
            rule.rule_type = "required_fields" → ∀ f ∈ rule.fields, f ∈ tableCols) := by
  constructor
  · intro h
    have h' := h
    simp only [validate_input_data, Bool.and_eq_true, List.all_eq_true] at h'
    obtain ⟨hcols, hrules⟩ := h'
    refine ⟨?_, ?_⟩
    · intro c hc hreq
      have := hcols c.name (by
        refine List.mem_map.2 ⟨c, ?_, rfl⟩
        exact List.mem_filter.2 ⟨hc, hreq⟩)
      simpa using this
    · intro rule hr
      exact (apply_validation_rule_true_iff tableCols rule).1 (hrules rule hr)
  · rintro ⟨hcols, hrules⟩
    simp only [validate_input_data, Bool.and_eq_true, List.all_eq_true]
    refine ⟨?_, ?_⟩
    · intro n hn
      obtain ⟨c, hc, rfl⟩ := List.mem_map.1 hn
      have hc' := List.mem_filter.1 hc
      simpa using hcols c hc'.1 hc'.2
    · intro rule hr
      exact (apply_validation_rule_true_iff tableCols rule).2 (hrules rule hr)

/-- C2 (code bug at a concrete input): the row's first condition matches and
the action tag contains `NOJPY_D_G`, yet the appended suffix is `_JPY_D_G`:
the `elif` chain tests `'JPY_D_G' in action` first, and `JPY_D_G` is a
substring of `NOJPY_D_G`, so the two NOJPY branches are unreachable. -/
theorem leaf_gl_nojpy_action_gets_jpy_suffix :
    evaluate_condition c2row "CURRENCY_Cosmos != 'JPY' AND PRODUCT_TYPE IN ['D', 'G']" = true
    ∧ containsSubstr "SET_LEAF_GL_NOJPY_D_G" "NOJPY_D_G" = true
    ∧ calculate_leaf_gl_from_config c2row c2rule = .str "LEAF003_JPY_D_G" := by
  refine ⟨by decide, by decide, by decide⟩

theorem fillDefaults_cons (f : String) (fs : List String) (r : Row) :
    fillDefaults (f :: fs) r =
      fillDefaults fs (if (r.find f).isSome then r else r.set f (.str "")) := rfl

theorem find_fillDefaults (fields : List String) (r : Row) (k : String) :
    (fillDefaults fields r).find k =
      match r.find k with
      | some v => some v
      | none => if k ∈ fields then some (.str "") else none := by
  induction fields generalizing r with
  | nil =>
      show r.find k = _
      cases r.find k <;> simp
  | cons f fs ih =>
      rw [fillDefaults_cons]
      by_cases hf : (r.find f).isSome
      · rw [if_pos hf, ih]
        by_cases hk : k = f
        · subst hk
          obtain ⟨v, hv⟩ := Option.isSome_iff_exists.1 hf
          simp [hv]
        · cases h : r.find k <;> simp [h, hk]
      · rw [if_neg hf, ih]
        by_cases hk : k = f
        · subst hk
          rw [Option.not_isSome_iff_eq_none] at hf
          simp [Row.find_set_self, hf]
        · rw [Row.find_set_ne r f k _ hk]
          cases h : r.find k <;> simp [h, hk]

theorem mem_keys_fillDefaults (fields : List String) (r : Row) (k : String) :
    k ∈ (fillDefaults fields r).keys ↔ k ∈ fields ∨ k ∈ r.keys := by
  rw [Row.mem_keys_iff_find, Row.mem_keys_iff_find, find_fillDefaults]
  cases h : r.find k <;> by_cases hk : k ∈ fields <;> simp [hk]

/-- C3 (corrected): for a row whose core transform succeeds, the filled
output mapping's key set is the declared set (output columns ∪ additional
fields) together with whatever keys the rules and mappings wrote, and every
declared field the rules and mappings left unset is bound to `''`.  The
declared set is covered but need not exhaust the keys. -/
theorem transform_row_key_set (pr : ProcessingRules) (os : OutputSchema) (row : Row)
    (r' : Row) (h : transformCore pr row = .ok r') :
    transform_row pr os row = .ok (fillDefaults (allOutputFields os) r')
    ∧ (∀ k, k ∈ (fillDefaults (allOutputFields os) r').keys ↔
        k ∈ allOutputFields os ∨ k ∈ r'.keys)
    ∧ (∀ f, f ∈ allOutputFields os → f ∉ r'.keys →
        (fillDefaults (allOutputFields os) r').find f = some (.str "")) := by
  refine ⟨?_, fun k => mem_keys_fillDefaults _ _ k, ?_⟩
  · rw [transform_row, h]
    rfl
  · intro f hf hnot
    rw [find_fillDefaults]
    rw [Row.mem_keys_iff_find, Option.isSome_iff_exists] at hnot
    cases hfind : r'.find f with
    | some v => exact absurd ⟨v, hfind⟩ hnot
    | none => simp [hf]

/-- C3 counterexample: with a field mapping into `X` and an output schema
declaring only `A`, the mapping `transform_row` produces has key `X`, which
is outside (output columns ∪ additional fields) — the key set is a strict
superset of the union, not equal to it. -/
theorem transform_row_extra_key :
    transform_row c3pr c3os [] = .ok [("A", .str ""), ("X", .str "")]
    ∧ "X" ∈ Row.keys [("A", Value.str ""), ("X", Value.str "")]
    ∧ "X" ∉ allOutputFields c3os := by
  refine ⟨by decide, by decide, by decide⟩

theorem transform_row_key_set_witness :
    transform_row c3pr c3os [] = .ok (fillDefaults (allOutputFields c3os) [("X", .str "")]) :=
  (transform_row_key_set c3pr c3os [] [("X", .str "")] (by decide)).1

theorem drorcrLoop_none (row : Row) (cs : List CondEntry)
    (h : ∀ c ∈ cs, evaluate_condition row c.condition = false) :
    drorcrLoop row cs = none := by
  induction cs with
  | nil => rfl
  | cons c rest ih =>
      have hc := h c (List.mem_cons_self c rest)
      simp only [drorcrLoop, hc, Bool.false_eq_true, if_false]
      exact ih (fun c' hc' => h c' (List.mem_cons_of_mem c hc'))

theorem drorcrLoop_first (row : Row) (pre : List CondEntry) (c : CondEntry)
    (post : List CondEntry)
    (hpre : ∀ c' ∈ pre, evaluate_condition row c'.condition = false)
    (hc : evaluate_condition row c.condition = true) :
    drorcrLoop row (pre ++ c :: post) = some c.value := by
  induction pre with
  | nil => simp [drorcrLoop, hc]
  | cons p rest ih =>
      have hp := hpre p (List.mem_cons_self p rest)
      simp only [List.cons_append, drorcrLoop, hp, Bool.false_eq_true, if_false]
      exact ih (fun c' hc' => hpre c' (List.mem_cons_of_mem p hc'))

/-- C4: DRORCR is the first matching condition's literal value; with no
match it is decided by the configured default action and the sign of the
safely-coerced FACE_VALUE (`'C'` for ≥ 0, `'D'` for < 0), defaulting to
`'C'` with no default action; in particular FACE_VALUE 0 with a default
action gives `'C'` and FACE_VALUE −1 gives `'D'`. -/
theorem drorcr_spec (row : Row) (rule : TransformationRule) :
    (∀ pre c post, rule.logic.conditions = pre ++ c :: post →
        (∀ c' ∈ pre, evaluate_condition row c'.condition = false) →
        evaluate_condition row c.condition = true →
        calculate_drorcr_from_config row rule = c.value)
    ∧ ((∀ c ∈ rule.logic.conditions, evaluate_condition row c.condition = false) →
        calculate_drorcr_from_config row rule =
          if rule.logic.default_action then
            (if 0 ≤ safe_float_conversion (row.get "FACE_VALUE" (.num 0)) then "C" else "D")
          else "C")
    ∧ calculate_drorcr_from_config [("FACE_VALUE", .num 0)] c4rule0 = "C"
    ∧ calculate_drorcr_from_config [("FACE_VALUE", .num (-1))] c4rule0 = "D" := by
  refine ⟨?_, ?_, by decide, by decide⟩
  · intro pre c post hsplit hpre hc
    rw [calculate_drorcr_from_config, hsplit, drorcrLoop_first row pre c post hpre hc]
  · intro hnone
    rw [calculate_drorcr_from_config, drorcrLoop_none row _ hnone]

theorem drorcr_spec_witness :
    calculate_drorcr_from_config c4wrow c4wrule = "X" :=
  (drorcr_spec c4wrow c4wrule).1 [] c4wcond []
    rfl (fun c' hc' => absurd hc' (List.not_mem_nil c')) (by decide)

/-- C5: the balance-sign and amount rules read the same currency-selected,
safely-coerced amount (`LCY_FACE_VALUE` under `Currency_Flex == 'JPY'`,
else `FACE_VALUE`); the former sets both `OPBALSIGN` and `CLBALSIGN` to
`'D'` exactly when that amount is negative and `'C'` otherwise, the latter
sets `AMOUNT` to its absolute value and `OPBAL`/`CLBAL` to the signed value;
the claim's JPY/−500 example comes out as stated. -/
theorem balance_sign_amount_spec (row : Row) :
    calculate_balance_sign_from_config row =
      [ ("OPBALSIGN", .str (if amountSource row < 0 then "D" else "C"))
      , ("CLBALSIGN", .str (if amountSource row < 0 then "D" else "C")) ]
    ∧ calculate_amounts_from_config row =
      [ ("AMOUNT", .num |amountSource row|)
      , ("OPBAL", .num (amountSource row))
      , ("CLBAL", .num (amountSource row)) ]
    ∧ calculate_balance_sign_from_config c5row =
        [("OPBALSIGN", .str "D"), ("CLBALSIGN", .str "D")]
    ∧ calculate_amounts_from_config c5row =
        [("AMOUNT", .num 500), ("OPBAL", .num (-500)), ("CLBAL", .num (-500))] :=
  ⟨rfl, rfl, by decide, by decide⟩

theorem format_date_of_chain (s : String) (hs : s ≠ "")
    (h : formatChain s.toList = some d) :
    format_date (.str s) = strftimeYmd d := by
  rw [format_date, if_neg (by simpa [pyFalsy] using hs)]
  simp only [pyStr, h]

theorem strptimeYmdDash_empty : strptimeYmdDash "".toList = none := by decide

/-- C6: the formatter tries `%Y-%m-%d`, `%Y%m%d`, `%d/%m/%Y`, `%m/%d/%Y` in
that order and re-emits the first successful parse as `YYYYMMDD`; when every
format fails it returns the first 8 characters of the raw value; empty input
gives the empty string; and on the claim's examples it is idempotent:
`'20230901' ↦ '20230901'`, `'2023-09-01' ↦ '20230901'`,
`'abcdefgh' ↦ 'abcdefgh'`. -/
theorem format_date_spec :
    (∀ s d, strptimeYmdDash s.toList = some d →
        format_date (.str s) = strftimeYmd d)
    ∧ (∀ s d, strptimeYmdDash s.toList = none →
        strptimeYmdCompact s.toList = some d →
        format_date (.str s) = strftimeYmd d)
    ∧ (∀ s d, strptimeYmdDash s.toList = none →
        strptimeYmdCompact s.toList = none →
        strptimeDmySlash s.toList = some d →
        format_date (.str s) = strftimeYmd d)
    ∧ (∀ s d, strptimeYmdDash s.toList = none →
        strptimeYmdCompact s.toList = none →
        strptimeDmySlash s.toList = none →
        strptimeMdySlash s.toList = some d →
        format_date (.str s) = strftimeYmd d)
    ∧ (∀ s : String, s ≠ "" →
        strptimeYmdDash s.toList = none →
        strptimeYmdCompact s.toList = none →
        strptimeDmySlash s.toList = none →
        strptimeMdySlash s.toList = none →
        format_date (.str s) = ⟨s.toList.take 8⟩)
    ∧ format_date (.str "") = ""
    ∧ format_date (.str "20230901") = "20230901"
    ∧ format_date (.str "2023-09-01") = "20230901"
    ∧ format_date (.str "abcdefgh") = "abcdefgh" := by
  refine ⟨?_, ?_, ?_, ?_, ?_, by decide, by decide, by decide, by decide⟩
  · intro s d h1
    have hs : s ≠ "" := by
      rintro rfl
      rw [strptimeYmdDash_empty] at h1
      exact Option.noConfusion h1
    exact format_date_of_chain s hs (by rw [formatChain, h1])
  · intro s d h1 h2
    have hs : s ≠ "" := by
      rintro rfl
      rw [show strptimeYmdCompact "".toList = none from by decide] at h2
      exact Option.noConfusion h2
    exact format_date_of_chain s hs (by rw [formatChain, h1, h2])
  · intro s d h1 h2 h3
    have hs : s ≠ "" := by
      rintro rfl
      rw [show strptimeDmySlash "".toList = none from by decide] at h3
      exact Option.noConfusion h3
    exact format_date_of_chain s hs (by rw [formatChain, h1, h2, h3])
  · intro s d h1 h2 h3 h4
    have hs : s ≠ "" := by
      rintro rfl
      rw [show strptimeMdySlash "".toList = none from by decide] at h4
      exact Option.noConfusion h4
    exact format_date_of_chain s hs (by rw [formatChain, h1, h2, h3]; exact h4)
  · intro s hs h1 h2 h3 h4
    rw [format_date, if_neg (by simpa [pyFalsy] using hs)]
    simp only [pyStr]
    rw [formatChain, h1, h2, h3, h4]

theorem format_date_spec_witness :
    format_date (.str "20230901") = strftimeYmd (2023, 9, 1)
    ∧ format_date (.str "31/12/2023") = strftimeYmd (2023, 12, 31) :=
  ⟨format_date_spec.2.1 "20230901" (2023, 9, 1) (by decide) (by decide),
   format_date_spec.2.2.1 "31/12/2023" (2023, 12, 31) (by decide) (by decide) (by decide)⟩

theorem sumLengths_nil : sumLengths [] = 0 := rfl

theorem sumLengths_cons (c : Column) (cs : List Column) :
    sumLengths (c :: cs) = c.length + sumLengths cs := by
  simp [sumLengths]

theorem parseCols_append (line : String) (pos : Nat) (xs ys : List Column) :
    parseCols line pos (xs ++ ys) =
      parseCols line pos xs ++ parseCols line (pos + sumLengths xs) ys := by
  induction xs generalizing pos with
  | nil => simp [parseCols, sumLengths_nil]
  | cons c rest ih =>
      have lhs : parseCols line pos ((c :: rest) ++ ys)
          = (c.name, fieldValue line pos c) :: parseCols line (pos + c.length) (rest ++ ys) := rfl
      have rhs : parseCols line pos (c :: rest)
          = (c.name, fieldValue line pos c) :: parseCols line (pos + c.length) rest := rfl
      rw [lhs, rhs, List.cons_append, ih, sumLengths_cons, Nat.add_assoc]

theorem keys_parseCols (line : String) (pos : Nat) (cols : List Column) :
    (parseCols line pos cols).map Prod.fst = cols.map Column.name := by
  induction cols generalizing pos with
  | nil => rfl
  | cons c rest ih => simp [parseCols, ih]

theorem find_foldl_set_notmem (ps : List (String × Value)) (r : Row) (k : String)
    (h : k ∉ ps.map Prod.fst) :
    Row.find (ps.foldl (fun acc p => acc.set p.1 p.2) r) k = r.find k := by
  induction ps generalizing r with
  | nil => rfl
  | cons p rest ih =>
      simp only [List.map_cons, List.mem_cons, not_or] at h
      rw [List.foldl_cons, ih _ h.2, Row.find_set_ne _ _ _ _ h.1]

theorem find_dictOf_mid (as bs : List (String × Value)) (k : String) (v : Value)
    (h : k ∉ bs.map Prod.fst) :
    Row.find (dictOf (as ++ (k, v) :: bs)) k = some v := by
  rw [dictOf, List.foldl_append, List.foldl_cons]
  rw [find_foldl_set_notmem bs _ k h, Row.find_set_self]

/-- C7: fixed-width parsing walks the schema columns in declared order with
cumulative offsets from 0 and always produces the record: the entry for a
column (with no later duplicate of its name) sits at offset `sumLengths pre`
of the line; a span that overruns the line extracts the empty value; and a
numeric column converts empty or unparseable text to `0.0` and valid numeric
text to its value. -/
theorem parse_dat_line_spec (schema : InputSchema) (line : String)
    (pre : List Column) (c : Column) (post : List Column)
    (hcols : schema.columns = pre ++ c :: post)
    (hname : c.name ∉ post.map Column.name) :
    (parse_dat_line schema line).find c.name =
      some (fieldValue line (sumLengths pre) c)
    ∧ (sumLengths pre + c.length > line.length →
        extractField line (sumLengths pre) c.length = "")
    ∧ convertField "numeric" "" = .num 0
    ∧ (∀ v, parseFloat v = none → convertField "numeric" v = .num 0)
    ∧ (∀ v q, v ≠ "" → parseFloat v = some q → convertField "numeric" v = .num q) := by
  refine ⟨?_, ?_, by decide, ?_, ?_⟩
  · rw [parse_dat_line, hcols, parseCols_append, parseCols, Nat.zero_add]
    exact find_dictOf_mid _ _ _ _ (by rw [keys_parseCols]; exact hname)
  · intro hover
    rw [extractField, if_pos hover]
  · intro v hv
    by_cases h0 : v = ""
    · subst h0; decide
    · simp [convertField, h0, hv]
  · intro v q hv hq
    simp [convertField, hv, hq]

theorem parse_dat_line_spec_witness :
    (parse_dat_line c7schema "ab").find "N" = some (fieldValue "ab" (sumLengths [c7colA]) c7colN)
    ∧ fieldValue "ab" (sumLengths [c7colA]) c7colN = .num 0
    ∧ extractField "ab" (sumLengths [c7colA]) c7colN.length = "" :=
  ⟨(parse_dat_line_spec c7schema "ab" [c7colA] c7colN [] rfl (by decide)).1,
   by decide,
   (parse_dat_line_spec c7schema "ab" [c7colA] c7colN [] rfl (by decide)).2.1 (by decide)⟩

/-- C8: the condition evaluator is total over rows and condition strings by
construction (the source's catch-all `except` can then only return `false`),
and a condition string containing none of the ten recognized pattern texts
evaluates to `false`. -/
theorem evaluate_condition_default_false (row : Row) (condition : String)
    (h : ∀ p ∈ conditionPatterns, containsSubstr condition p = false) :
    evaluate_condition row condition = false := by
  simp only [conditionPatterns, List.mem_cons, List.not_mem_nil, or_false,
    forall_eq_or_imp, forall_eq] at h
  obtain ⟨h1, h2, h3, h4, h5, h6, h7, h8, h9, h10⟩ := h
  simp only [evaluate_condition, h1, h2, h3, h4, h5, h6, h7, h8, h9, h10,
    Bool.false_eq_true, if_false]

theorem evaluate_condition_default_false_witness :
    evaluate_condition [] "foo" = false :=
  evaluate_condition_default_false [] "foo" (by decide)

theorem convertRows_eq_filterMap (pr : ProcessingRules) (os : OutputSchema)
    (rows : List Row) :
    convertRows pr os rows = rows.filterMap (fun r => (transform_row pr os r).toOption) := by
  induction rows with
  | nil => rfl
  | cons r rest ih =>
      rw [convertRows, List.filterMap_cons]
      cases h : transform_row pr os r <;> simp [h, Except.toOption, ih]

/-- C9: once a table passes validation, `convert_data` is the in-order
image of the non-failing rows: the row loop keeps input order and drops
exactly the rows whose transform raises, never aborting the run. -/
theorem convert_data_spec (schema : InputSchema) (pr : ProcessingRules)
    (os : OutputSchema) (t : Table)
    (h : validate_input_data schema t.columns = true) :
    convert_data schema pr os t =
      .ok (t.rows.filterMap (fun r => (transform_row pr os r).toOption)) := by
  rw [convert_data, if_pos h, convertRows_eq_filterMap]

theorem convert_data_spec_witness :
    convert_data c9schema c3pr c3os c9table =
      .ok (c9table.rows.filterMap (fun r => (transform_row c3pr c3os r).toOption)) :=
  convert_data_spec c9schema c3pr c3os c9table (by decide)

theorem applyMappings_error_of_mem (row : Row) (ms : List FieldMapping) (acc : Row)
    (m : FieldMapping) (hm : m ∈ ms) (e : String)
    (he : apply_field_mapping row m = .error e) :
    ∃ e', applyMappings row acc ms = .error e' := by
  induction ms generalizing acc with
  | nil => exact absurd hm (List.not_mem_nil m)
  | cons a rest ih =>
      rcases List.mem_cons.1 hm with rfl | hmem
      · exact ⟨e, by rw [applyMappings, he]⟩
      · cases ha : apply_field_mapping row a with
        | ok v =>
            obtain ⟨e', he'⟩ := ih (acc.set a.output_field v) hmem
            exact ⟨e', by rw [applyMappings, ha]; exact he'⟩
        | error e'' => exact ⟨e'', by rw [applyMappings, ha]⟩

theorem convertRows_nil_of_all_error (pr : ProcessingRules) (os : OutputSchema)
    (rows : List Row) (h : ∀ r, ∃ e, transform_row pr os r = .error e) :
    convertRows pr os rows = [] := by
  induction rows with
  | nil => rfl
  | cons r rest ih =>
      obtain ⟨e, he⟩ := h r
      rw [convertRows, he, ih]

/-- C10: a `DEFAULT_VALUE` field mapping with no `default_value` entry makes
`apply_field_mapping` raise a lookup error (the key is read
unconditionally), the error escapes so `transform_row` fails on every row,
and the orchestrator therefore drops every row: `convert_data` returns an
empty output for any table that passes validation. -/
theorem default_value_keyerror (row : Row) (pr : ProcessingRules) (os : OutputSchema)
    (m : FieldMapping) (hm : m ∈ pr.field_mappings)
    (ht : m.transformation = "DEFAULT_VALUE") (hd : m.default_value = none) :
    apply_field_mapping row m = .error "KeyError: default_value"
    ∧ (∃ e, transform_row pr os row = .error e)
    ∧ (∀ (schema : InputSchema) (t : Table),
        validate_input_data schema t.columns = true →
        convert_data schema pr os t = .ok []) := by
  have hafm : ∀ r : Row, apply_field_mapping r m = .error "KeyError: default_value" := by
    intro r
    rw [apply_field_mapping, if_neg (by rw [ht]; decide), if_pos (by rw [ht]), hd]
  have hfail : ∀ r : Row, ∃ e, transform_row pr os r = .error e := by
    intro r
    obtain ⟨e', he'⟩ := applyMappings_error_of_mem r pr.field_mappings
      (pr.transformation_rules.foldl (applyRuleToRow r) []) m hm _ (hafm r)
    exact ⟨e', by rw [transform_row, transformCore, he']; rfl⟩
  refine ⟨hafm row, hfail row, ?_⟩
  intro schema t hv
  rw [convert_data, if_pos hv, convertRows_nil_of_all_error pr os t.rows hfail]

theorem default_value_keyerror_witness :
    apply_field_mapping [] c10map = .error "KeyError: default_value" :=
  (default_value_keyerror [] c10pr {} c10map (by decide) rfl rfl).1












end ETL
